import Mathlib

/-!
Verification development for the pyForceDAQ acquisition-and-recording engine
(`forceDAQ/recorder.py`).

The recorder orchestrates sensor acquisition workers (`SensorProcess`), an
optional UDP command-channel worker (`UDPConnectionProcess`), an in-memory
soft-trigger list, per-device sample counters and an output data file.  The
worker classes themselves live outside the sources at hand; their buffer and
queue exchanges are modelled from the specification (buffering appends to an
internal buffer, `pause_polling_get_buffer` atomically swaps out the buffer,
the receive queue is FIFO, `stop` is idempotent).  All recorder-level code
(`DataRecorder.__init__`, `quit`, `process_udp_events`, `_write_data`,
`write_soft_trigger`, `start_recording`, `pause_recording`,
`open_data_file`, `close_data_file`) is translated directly from
`recorder.py`.
-/

namespace ForceDAQ

/-- One calibrated force reading (`ForceData` in `types`): device id,
timestamp in ms and the force components written to file.  Torques are not
written by `_write_data` and play no role in the recorder, so they are
omitted here. -/
structure ForceData where
  device_id : Int
  time : Int
  Fx : Rat
  Fy : Rat
  Fz : Rat
deriving DecidableEq, Repr

/-- An operator- or logic-issued marker (`SoftTrigger` in `types`). -/
structure SoftTrigger where
  time : Int
  code : Int
deriving DecidableEq, Repr

/-- A received network message (`UDPData` in `types`). -/
structure UDPData where
  time : Int
  string : String
deriving DecidableEq, Repr

/-- The unified event stream handled by `DataRecorder._write_data`, which
dispatches on the runtime type of each element. -/
inductive Event where
  | force : ForceData → Event
  | trigger : SoftTrigger → Event
  | udp : UDPData → Event
deriving DecidableEq, Repr

/-- `CODE_SOFTTRIGGER = 88` in `recorder.py`. -/
def CODE_SOFTTRIGGER : Int := 88

/-- `CODE_UDPDATA = 99` in `recorder.py`. -/
def CODE_UDPDATA : Int := 99

/-- Modelled from the spec: `SensorSettings` (from the `daq` module, not in
the sources at hand) is an immutable configuration carrying the `device_id`;
the calibration and timer references are not observable by the recorder and
are omitted. -/
structure SensorSettings where
  device_id : Int
deriving DecidableEq, Repr

/-- Modelled from the spec: the observable state of a `SensorProcess`
(`daq` module, not in the sources at hand).  The background sampling loop
appends calibrated samples to `buffer`; `polling` is the recording tag
toggled by `start_polling` / `pause_polling_get_buffer`;
`bias_available` is the one-shot gate `event_bias_is_available`;
`stopped` is set by the idempotent `stop`. -/
structure SensorProcess where
  settings : SensorSettings
  buffer : List ForceData
  polling : Bool
  bias_available : Bool
  stopped : Bool
deriving DecidableEq, Repr

/-- Modelled from the spec: `pause_polling_get_buffer` atomically swaps out
and returns the full accumulated buffer, leaving a fresh empty buffer, and
stops the recording tagging. -/
def SensorProcess.pause_polling_get_buffer (p : SensorProcess) :
    SensorProcess × List ForceData :=
  ({ p with polling := false, buffer := [] }, p.buffer)

/-- Modelled from the spec: `start_polling` marks subsequent samples as
recording-tagged. -/
def SensorProcess.start_polling (p : SensorProcess) : SensorProcess :=
  { p with polling := true }

/-- Modelled from the spec: `stop` terminates the background execution;
idempotent. -/
def SensorProcess.stop (p : SensorProcess) : SensorProcess :=
  { p with stopped := true }

/-- Modelled from the spec: the observable state of a
`UDPConnectionProcess` (`misc` module, not in the sources at hand): a FIFO
`receive_queue` of inbound parsed messages and the idempotent `stop` flag. -/
structure UDPConnection where
  receive_queue : List UDPData
  stopped : Bool
deriving DecidableEq, Repr

/-- Modelled from the spec: stopping the UDP worker; idempotent. -/
def UDPConnection.stop (u : UDPConnection) : UDPConnection :=
  { u with stopped := true }

/-- The state of a `DataRecorder`: the sensor processes it owns, the
per-device `sample_counter` dictionary (association list keyed by
`device_id`), the optional UDP worker, the `_is_recording` flag, the open
data file (`some lines` when open, where `lines` are the strings written so
far) with the `filename` chosen by `open_data_file`, and the pending
`_soft_trigger` list. -/
structure DataRecorder where
  force_sensor_processes : List SensorProcess
  sample_counter : List (Int × Nat)
  udp : Option UDPConnection
  is_recording : Bool
  file : Option (List String)
  filename : Option String
  soft_trigger : List SoftTrigger
deriving DecidableEq, Repr

/-- A Python dict assignment `d[k] = v`: overwrite the binding if the key is
present, append it otherwise. -/
def dictSet : List (Int × Nat) → Int → Nat → List (Int × Nat)
  | [], k, v => [(k, v)]
  | (k', v') :: rest, k, v =>
      if k' = k then (k', v) :: rest else (k', v') :: dictSet rest k v

/-- A Python dict increment `d[k] += 1`.  In Python a missing key raises
`KeyError`; in this model a missing key leaves the dictionary unchanged —
every sample reaching `_write_data` carries the `device_id` of a configured
worker, for which `__init__` created the entry. -/
def dictIncr : List (Int × Nat) → Int → List (Int × Nat)
  | [], _ => []
  | (k', v') :: rest, k =>
      if k' = k then (k', v' + 1) :: rest else (k', v') :: dictIncr rest k

/-- An element of the `force_sensor_settings` argument of
`DataRecorder.__init__`: either an actual `SensorSettings` or any other
Python object (`isinstance(fs, SensorSettings)` is false). -/
inductive SettingsItem where
  | valid : SensorSettings → SettingsItem
  | invalid : SettingsItem
deriving DecidableEq, Repr

/-- The per-element body of the `__init__` loop: a non-`SensorSettings`
element only constructs `RuntimeError(...)` without raising it, so it is
silently skipped; a valid element creates and starts a `SensorProcess` and
sets `sample_counter[device_id] = 0`. -/
def initStep (acc : List SensorProcess × List (Int × Nat)) (it : SettingsItem) :
    List SensorProcess × List (Int × Nat) :=
  match it with
  | .invalid => acc
  | .valid fs =>
      (acc.1 ++ [{ settings := fs, buffer := [], polling := false,
                   bias_available := false, stopped := false }],
       dictSet acc.2 fs.device_id 0)

/-- `DataRecorder.__init__`: create and start one `SensorProcess` per valid
settings element, zero its counter, optionally create the UDP worker.
Construction never raises. -/
def initRecorder (force_sensor_settings : List SettingsItem)
    (poll_udp_connection : Bool) : DataRecorder :=
  let fsps := force_sensor_settings.foldl initStep ([], [])
  { force_sensor_processes := fsps.1
    sample_counter := fsps.2
    udp := if poll_udp_connection then
             some { receive_queue := [], stopped := false }
           else none
    is_recording := false
    file := none
    filename := none
    soft_trigger := [] }

/-- The value of a rational scaled by `10^4` and rounded to the nearest
integer: the digits printed by Python's `"%.4f"`.  Computed on the
numerator and denominator so that it evaluates inside the kernel;
`scaled4_eq_round` relates it to `round`. -/
def scaled4 (q : Rat) : Int :=
  Int.fdiv (2 * q.num * 10000 + q.den) (2 * q.den)

/-- Fixed-point rendering of a rational with 4 digits after the decimal
point, the shape produced by Python's `"%.4f"`: optional sign, integer
part, and the four fraction digits of the rounded scaled value. -/
def fmt4 (q : Rat) : String :=
  let n : Int := scaled4 q
  let a := n.natAbs
  (if n < 0 then "-" else "") ++ toString (a / 10000) ++ "." ++
    String.mk [Char.ofNat (48 + a / 1000 % 10), Char.ofNat (48 + a / 100 % 10),
               Char.ofNat (48 + a / 10 % 10), Char.ofNat (48 + a % 10)]

/-- The line `_write_data` writes for one event: a `ForceData` row
`"%d,%d,%.4f,%.4f,%.4f\n"`, a `SoftTrigger` row
`"%d,%d,%s,0,0\n"` with `CODE_SOFTTRIGGER`, a `UDPData` row
`"%d,%d,%s,0,0\n"` with `CODE_UDPDATA`. -/
def eventLine : Event → String
  | .force d =>
      toString d.device_id ++ "," ++ toString d.time ++ "," ++
      fmt4 d.Fx ++ "," ++ fmt4 d.Fy ++ "," ++ fmt4 d.Fz ++ "\n"
  | .trigger d =>
      toString CODE_SOFTTRIGGER ++ "," ++ toString d.time ++ "," ++
      toString d.code ++ ",0,0\n"
  | .udp d =>
      toString CODE_UDPDATA ++ "," ++ toString d.time ++ "," ++
      d.string ++ ",0,0\n"

/-- One iteration of the `_write_data` loop: bump the sample counter for a
`ForceData`, then, if a file is open, append the formatted line. -/
def writeEvent (rec : DataRecorder) (d : Event) : DataRecorder :=
  let rec1 :=
    match d with
    | .force fd =>
        { rec with sample_counter := dictIncr rec.sample_counter fd.device_id }
    | _ => rec
  match rec1.file with
  | none => rec1
  | some lines => { rec1 with file := some (lines ++ [eventLine d]) }

/-- `DataRecorder._write_data`: write a drained buffer to disk (if a file is
open) and update the per-device counters. -/
def writeData (rec : DataRecorder) (data_buffer : List Event) : DataRecorder :=
  data_buffer.foldl writeEvent rec

/-- `DataRecorder.process_udp_events`: drain the UDP receive queue until
empty (or immediately when there is no UDP worker: the attribute access
raises and is swallowed by the bare `except`), write the drained events and
return them. -/
def process_udp_events (rec : DataRecorder) : DataRecorder × List Event :=
  match rec.udp with
  | none => (writeData rec [], [])
  | some u =>
      let buffer := u.receive_queue.map Event.udp
      let rec1 := { rec with udp := some { u with receive_queue := [] } }
      (writeData rec1 buffer, buffer)

/-- `DataRecorder.write_soft_trigger`: append a marker to the in-memory
pending list; the timestamp defaults to the current timer time `now`. -/
def write_soft_trigger (rec : DataRecorder) (code : Int) (time : Option Int)
    (now : Int) : DataRecorder :=
  let t := time.getD now
  { rec with soft_trigger := rec.soft_trigger ++ [{ time := t, code := code }] }

/-- `DataRecorder.start_recording` (with `determine_bias=False`): raise if
any sensor's bias gate is unset, otherwise start polling on every sensor and
set `_is_recording`. -/
def start_recording (rec : DataRecorder) : Except String DataRecorder :=
  if rec.force_sensor_processes.any (fun x => !x.bias_available) then
    Except.error "Sensors cant be started before bias has been determined."
  else
    Except.ok { rec with
      force_sensor_processes :=
        rec.force_sensor_processes.map SensorProcess.start_polling
      is_recording := true }

/-- The sensor loop of `pause_recording`: for each process in order, swap
out its buffer, `_write_data` it and collect it, threading the recorder
(file and counters) through. -/
def drainSensors (rec : DataRecorder) :
    List SensorProcess → DataRecorder × List SensorProcess × List Event
  | [] => (rec, [], [])
  | p :: rest =>
      let q := p.pause_polling_get_buffer
      let evs := q.2.map Event.force
      let rec1 := writeData rec evs
      let r := drainSensors rec1 rest
      (r.1, q.1 :: r.2.1, evs ++ r.2.2)

/-- `DataRecorder.pause_recording`: clear `_is_recording`, drain every
sensor buffer, drain the UDP receive queue, flush and clear the pending
soft triggers, writing each drained chunk, and return the merged data. -/
def pause_recording (rec : DataRecorder) : DataRecorder × List Event :=
  let rec0 := { rec with is_recording := false }
  let d := drainSensors rec0 rec0.force_sensor_processes
  let rec1 := { d.1 with force_sensor_processes := d.2.1 }
  let u := process_udp_events rec1
  let trig := u.1.soft_trigger.map Event.trigger
  let rec2 := writeData u.1 trig
  let rec3 := { rec2 with soft_trigger := [] }
  (rec3, d.2.2 ++ u.2 ++ trig)

/-- `DataRecorder.close_data_file`: close the file if one is open;
idempotent. -/
def close_data_file (rec : DataRecorder) : DataRecorder :=
  match rec.file with
  | none => rec
  | some _ => { rec with file := none }

/-- The parts of the filesystem `open_data_file` touches: the set of
existing directories and the set of existing file paths. -/
structure FS where
  dirs : List String
  files : List String
deriving DecidableEq, Repr

/-- The candidate filename built inside the `while` loop of
`open_data_file` for a given counter value: base name, `_<cnt>` when
`cnt > 0`, `_<timestamp>` when requested, then the compression suffix. -/
def candidateName (filename : String) (cnt : Nat) (tstamp : Option String)
    (suffix : String) : String :=
  let flname := if cnt > 0 then filename ++ "_" ++ toString cnt else filename
  match tstamp with
  | some ts => flname ++ "_" ++ ts ++ suffix
  | none => flname ++ suffix

/-- The `while` loop of `open_data_file`: increment `cnt` until the
candidate path does not exist.  The Python loop is unbounded; `fuel` bounds
this model, with `none` standing for a search that has not yet succeeded. -/
def findFreeName (files : List String) (directory filename : String)
    (tstamp : Option String) (suffix : String) (cnt : Nat) :
    Nat → Option String
  | 0 => none
  | fuel + 1 =>
      let name := candidateName filename cnt tstamp suffix
      if directory ++ "/" ++ name ∈ files then
        findFreeName files directory filename tstamp suffix (cnt + 1) fuel
      else
        some name

/-- The `os.mkdir` branch of `open_data_file`: create the directory if it
does not exist. -/
def ensureDir (fs : FS) (directory : String) : FS :=
  if directory ∈ fs.dirs then fs
  else { fs with dirs := fs.dirs ++ [directory] }

/-- The `filename is None or len(filename) == 0` fallback of
`open_data_file`. -/
def defaultBaseName : Option String → String
  | none => "daq_recording"
  | some s => if s.length = 0 then "daq_recording" else s

/-- `DataRecorder.open_data_file`: create the directory if absent, close
any open file, disambiguate the filename against existing files, create and
open the new file and write the optional comment and header lines.  The
timestamp suffix (`strftime`) is passed in as `tstamp`; `none` models
`time_stamp_filename=False`. -/
def open_data_file (rec : DataRecorder) (fs : FS) (filename : Option String)
    (directory : String) (tstamp : Option String) (varnames : Bool)
    (comment_line : String) (zipped : Bool) (fuel : Nat) :
    Option (DataRecorder × FS × String) :=
  let fs1 := ensureDir fs directory
  let rec1 := close_data_file rec
  let suffix := if zipped then ".gz" else ""
  let base := defaultBaseName filename
  match findFreeName fs1.files directory base tstamp suffix 0 fuel with
  | none => none
  | some name =>
      let path := directory ++ "/" ++ name
      let header :=
        (if comment_line.length > 0 then ["#" ++ comment_line ++ "\n"] else [])
          ++ (if varnames then ["device_tag, time, Fx, Fy, Fz\n"] else [])
      some ({ rec1 with file := some header, filename := some name },
            { fs1 with files := fs1.files ++ [path] },
            name)

/-- `DataRecorder.quit`: pause recording (capturing the final buffer),
close the data file, stop the UDP worker if present, stop every sensor
process, and return the final buffer. -/
def quit (rec : DataRecorder) : DataRecorder × List Event :=
  let pr := pause_recording rec
  let rec1 := close_data_file pr.1
  let rec2 := { rec1 with udp := rec1.udp.map UDPConnection.stop }
  let rec3 := { rec2 with
    force_sensor_processes :=
      rec2.force_sensor_processes.map SensorProcess.stop }
  (rec3, pr.2)

/-- An operation in a recorder's lifetime, as driven by the owning
application and the workers' background loops:
`produce i t fx fy fz` is worker `i`'s sampling loop appending one
calibrated sample (tagged with its own `device_id`) to its buffer —
buffering happens even while paused; `udpArrive` is the network pushing a
message onto the receive queue; the rest are the recorder's public calls. -/
inductive Op where
  | produce : Nat → Int → Rat → Rat → Rat → Op
  | udpArrive : UDPData → Op
  | startRec : Op
  | pauseRec : Op
  | processUdp : Op
  | softTrig : Int → Option Int → Int → Op
deriving DecidableEq, Repr

/-- A recorder lifetime state: the recorder itself, the concatenation of
everything returned by `pause_recording` calls so far, and the ghost
multiset of every sample a worker ever buffered. -/
structure RunState where
  recorder : DataRecorder
  returned : List Event
  produced : Multiset ForceData

/-- One lifetime step.  A failing `start_recording` (bias not ready) leaves
the state unchanged; a `produce` on a stopped or non-existent worker
produces nothing. -/
def applyOp (st : RunState) (op : Op) : RunState :=
  match op with
  | .produce i t fx fy fz =>
      match st.recorder.force_sensor_processes[i]? with
      | none => st
      | some p =>
          if p.stopped then st
          else
            let s : ForceData :=
              { device_id := p.settings.device_id, time := t,
                Fx := fx, Fy := fy, Fz := fz }
            { st with
              recorder := { st.recorder with
                force_sensor_processes :=
                  st.recorder.force_sensor_processes.set i
                    { p with buffer := p.buffer ++ [s] } }
              produced := s ::ₘ st.produced }
  | .udpArrive d =>
      match st.recorder.udp with
      | none => st
      | some u =>
          if u.stopped then st
          else
            { st with recorder := { st.recorder with
                udp := some { u with receive_queue := u.receive_queue ++ [d] } } }
  | .startRec =>
      match start_recording st.recorder with
      | .error _ => st
      | .ok r => { st with recorder := r }
  | .pauseRec =>
      let pr := pause_recording st.recorder
      { st with recorder := pr.1, returned := st.returned ++ pr.2 }
  | .processUdp =>
      let pu := process_udp_events st.recorder
      { st with recorder := pu.1 }
  | .softTrig code time now =>
      { st with recorder := write_soft_trigger st.recorder code time now }

/-- Run a recorder lifetime from a freshly constructed recorder. -/
def runOps (force_sensor_settings : List SettingsItem)
    (poll_udp_connection : Bool) (ops : List Op) : RunState :=
  ops.foldl applyOp
    { recorder := initRecorder force_sensor_settings poll_udp_connection
      returned := []
      produced := 0 }

/-- The force samples among a list of drained events. -/
def forceEvents (evs : List Event) : List ForceData :=
  evs.filterMap (fun e => match e with
    | .force d => some d
    | _ => none)

/-- The multiset of samples currently sitting in sensor buffers. -/
def bufferedSamples (rec : DataRecorder) : Multiset ForceData :=
  (rec.force_sensor_processes.map
    (fun p => (p.buffer : Multiset ForceData))).sum

/-- The counter fold performed by `_write_data` over a buffer: one
`dictIncr` per `ForceData`. -/
def bumpAll (sc : List (Int × Nat)) (buf : List Event) : List (Int × Nat) :=
  buf.foldl
    (fun sc e => match e with
      | .force fd => dictIncr sc fd.device_id
      | _ => sc) sc

/-- A sensor process right after `pause_polling_get_buffer`: recording tag
off, fresh empty buffer. -/
def pausedP (p : SensorProcess) : SensorProcess :=
  { p with polling := false, buffer := [] }

/-- The events drained from the sensor processes, in drain order. -/
def sensorEvents (ps : List SensorProcess) : List Event :=
  ps.flatMap (fun p => p.buffer.map Event.force)

/-- The events drained from the UDP receive queue. -/
def udpEventsOf : Option UDPConnection → List Event
  | none => []
  | some u => u.receive_queue.map Event.udp

/-- The UDP worker after its receive queue has been drained. -/
def drainedUdp : Option UDPConnection → Option UDPConnection
  | none => none
  | some u => some { u with receive_queue := [] }

/-- Everything one `pause_recording` call drains, in the order it is
written and returned: sensor buffers, then UDP events, then pending soft
triggers. -/
def drainedEvents (rec : DataRecorder) : List Event :=
  sensorEvents rec.force_sensor_processes ++ udpEventsOf rec.udp ++
    rec.soft_trigger.map Event.trigger

/-- The value of a device's sample counter (`0` when the key is absent). -/
def counterVal (rec : DataRecorder) (id : Int) : Nat :=
  (rec.sample_counter.lookup id).getD 0

/-- How many force samples with a given device id a drained buffer holds. -/
def countForceId (buf : List Event) (id : Int) : Nat :=
  (forceEvents buf).countP (fun d => d.device_id == id)

/-- Recognizer for soft-trigger events among the written stream. -/
def isTriggerEv : Event → Bool
  | .trigger _ => true
  | _ => false

/-- A freshly constructed recorder with one sensor (device 1), used as a
concrete test fixture. -/
def demoRecorder : DataRecorder := initRecorder [.valid ⟨1⟩] false

/-- The demo recorder with an open, still empty data file. -/
def demoFileRecorder : DataRecorder := { demoRecorder with file := some [] }

/-- The demo recorder with its sensor's bias gate set, a buffered sample
and an open file — the state right before a pause. -/
def demoActiveRecorder : DataRecorder :=
  { demoRecorder with
    force_sensor_processes :=
      [{ settings := ⟨1⟩, buffer := [⟨1, 10, mkRat 5 1, 0, 0⟩], polling := true,
         bias_available := true, stopped := false }]
    file := some [] }

/-- The demo recorder with its sensor's bias gate set, ready to record. -/
def demoReadyRecorder : DataRecorder :=
  { demoRecorder with
    force_sensor_processes :=
      [{ settings := ⟨1⟩, buffer := [], polling := false,
         bias_available := true, stopped := false }] }

/-- A recorder constructed with `poll_udp_connection=True` and no
sensors. -/
def demoUdpRecorder : DataRecorder := initRecorder [] true

/-- First `open_data_file("run", directory="data")` call on an empty
filesystem. -/
def openTwiceFirst : Option (DataRecorder × FS × String) :=
  open_data_file demoRecorder ⟨[], []⟩ (some "run") "data" none true "" true 10

/-- Second `open_data_file("run", directory="data")` call, on the
filesystem left by the first. -/
def openTwiceSecond : Option (DataRecorder × FS × String) :=
  openTwiceFirst.bind
    (fun r => open_data_file r.1 r.2.1 (some "run") "data" none true "" true 10)

theorem writeEvent_eq (rec : DataRecorder) (e : Event) :
    writeEvent rec e =
      { rec with
        sample_counter := bumpAll rec.sample_counter [e]
        file := rec.file.map (fun ls => ls ++ [eventLine e]) } := by
  cases rec with
  | mk ps sc udp ir file fn st =>
      cases e <;> cases file <;> rfl

theorem writeData_nil (rec : DataRecorder) : writeData rec [] = rec := rfl

theorem bumpAll_nil (sc : List (Int × Nat)) : bumpAll sc [] = sc := rfl

theorem bumpAll_cons (sc : List (Int × Nat)) (e : Event) (buf : List Event) :
    bumpAll sc (e :: buf) = bumpAll (bumpAll sc [e]) buf := by
  cases e <;> rfl

theorem bumpAll_append (sc : List (Int × Nat)) (a b : List Event) :
    bumpAll sc (a ++ b) = bumpAll (bumpAll sc a) b := by
  simp [bumpAll]

theorem writeData_eq (buf : List Event) (rec : DataRecorder) :
    writeData rec buf =
      { rec with
        sample_counter := bumpAll rec.sample_counter buf
        file := rec.file.map (fun ls => ls ++ buf.map eventLine) } := by
  induction buf generalizing rec with
  | nil =>
      cases rec with
      | mk ps sc udp ir file fn st => cases file <;> simp [writeData, bumpAll]
  | cons e rest ih =>
      show writeData (writeEvent rec e) rest = _
      rw [ih, writeEvent_eq]
      cases rec with
      | mk ps sc udp ir file fn st =>
          cases file <;>
            simp [List.map_cons, bumpAll_nil, ← bumpAll_cons]

theorem writeData_append (rec : DataRecorder) (a b : List Event) :
    writeData rec (a ++ b) = writeData (writeData rec a) b := by
  simp [writeData]

theorem drainSensors_eq (ps : List SensorProcess) (rec : DataRecorder) :
    drainSensors rec ps =
      (writeData rec (sensorEvents ps), ps.map pausedP, sensorEvents ps) := by
  induction ps generalizing rec with
  | nil => rfl
  | cons p rest ih =>
      simp only [drainSensors, SensorProcess.pause_polling_get_buffer]
      rw [ih]
      simp [sensorEvents, writeData_append, pausedP]

theorem process_udp_events_eq (rec : DataRecorder) :
    process_udp_events rec =
      (writeData { rec with udp := drainedUdp rec.udp } (udpEventsOf rec.udp),
       udpEventsOf rec.udp) := by
  cases rec with
  | mk ps sc udp ir file fn st =>
      cases udp <;> rfl

theorem pause_recording_eq (rec : DataRecorder) :
    pause_recording rec =
      ({ writeData rec (drainedEvents rec) with
          is_recording := false
          force_sensor_processes :=
            rec.force_sensor_processes.map pausedP
          udp := drainedUdp rec.udp
          soft_trigger := [] },
       drainedEvents rec) := by
  cases rec with
  | mk ps sc udp ir file fn st =>
      show (pause_recording ⟨ps, sc, udp, ir, file, fn, st⟩ = _)
      rw [pause_recording]
      rw [drainSensors_eq, process_udp_events_eq]
      simp only [writeData_eq, drainedEvents, udpEventsOf, drainedUdp]
      cases udp <;> cases file <;>
        simp [bumpAll_append, bumpAll_nil, List.map_append,
          List.append_assoc, sensorEvents]

theorem close_data_file_eq (rec : DataRecorder) :
    close_data_file rec = { rec with file := none } := by
  cases rec with
  | mk ps sc udp ir file fn st => cases file <;> rfl

theorem quit_eq (rec : DataRecorder) :
    quit rec =
      ({ writeData rec (drainedEvents rec) with
          is_recording := false
          force_sensor_processes :=
            rec.force_sensor_processes.map (fun p => (pausedP p).stop)
          udp := (drainedUdp rec.udp).map UDPConnection.stop
          soft_trigger := []
          file := none },
       drainedEvents rec) := by
  rw [show quit rec =
        ({ close_data_file (pause_recording rec).1 with
            udp := (close_data_file (pause_recording rec).1).udp.map
              UDPConnection.stop
            force_sensor_processes :=
              (close_data_file
                (pause_recording rec).1).force_sensor_processes.map
                SensorProcess.stop },
         (pause_recording rec).2) from rfl]
  rw [pause_recording_eq, close_data_file_eq]
  simp [writeData_eq]

theorem lookup_cons {β : Type} (id a : Int) (b : β) (l : List (Int × β)) :
    List.lookup id ((a, b) :: l) =
      if id = a then some b else List.lookup id l := by
  show (match id == a with
        | true => some b
        | false => List.lookup id l) = _
  cases h : id == a
  · rw [if_neg (by simpa using h)]
  · rw [if_pos (by simpa using h)]

theorem lookup_dictIncr (sc : List (Int × Nat)) (k id : Int) :
    List.lookup id (dictIncr sc k) =
      if id = k then (List.lookup id sc).map (· + 1)
      else List.lookup id sc := by
  induction sc with
  | nil => simp [dictIncr]
  | cons kv rest ih =>
      obtain ⟨k', v'⟩ := kv
      simp only [dictIncr]
      by_cases hk : k' = k
      · subst hk
        by_cases hid : id = k'
        · subst hid
          simp [lookup_cons]
        · simp [lookup_cons, hid]
      · by_cases hid : id = k'
        · subst hid
          simp [lookup_cons, hk]
        · simp [lookup_cons, hid, hk, ih]

theorem countForceId_nil (id : Int) : countForceId [] id = 0 := rfl

theorem countForceId_cons (e : Event) (buf : List Event) (id : Int) :
    countForceId (e :: buf) id =
      countForceId buf id +
        (match e with
         | .force d => if d.device_id = id then 1 else 0
         | _ => 0) := by
  cases e <;> simp [countForceId, forceEvents, List.countP_cons]

theorem lookup_bumpAll (buf : List Event) (sc : List (Int × Nat)) (id : Int) :
    List.lookup id (bumpAll sc buf) =
      (List.lookup id sc).map (· + countForceId buf id) := by
  induction buf generalizing sc with
  | nil =>
      simp [bumpAll_nil, countForceId_nil]
  | cons e rest ih =>
      rw [bumpAll_cons, ih, countForceId_cons]
      cases e with
      | force d =>
          rw [show bumpAll sc [Event.force d] = dictIncr sc d.device_id
                from rfl,
             lookup_dictIncr]
          by_cases h : id = d.device_id
          · rw [if_pos h]
            have h2 : d.device_id = id := h.symm
            cases List.lookup id sc <;> simp [h2] <;> omega
          · rw [if_neg h]
            have h2 : ¬ d.device_id = id := fun hh => h hh.symm
            simp [h2]
      | trigger d => simp [bumpAll]
      | udp d => simp [bumpAll]

theorem forceEvents_append (a b : List Event) :
    forceEvents (a ++ b) = forceEvents a ++ forceEvents b := by
  simp [forceEvents]

theorem forceEvents_map_force (l : List ForceData) :
    forceEvents (l.map Event.force) = l := by
  induction l with
  | nil => rfl
  | cons d rest ih => simpa [forceEvents] using ih

theorem forceEvents_map_trigger (l : List SoftTrigger) :
    forceEvents (l.map Event.trigger) = [] := by
  induction l with
  | nil => rfl
  | cons d rest ih => simpa [forceEvents] using ih

theorem forceEvents_map_udp (l : List UDPData) :
    forceEvents (l.map Event.udp) = [] := by
  induction l with
  | nil => rfl
  | cons d rest ih => simpa [forceEvents] using ih

theorem forceEvents_udpEventsOf (u : Option UDPConnection) :
    forceEvents (udpEventsOf u) = [] := by
  cases u with
  | none => rfl
  | some u => simpa [udpEventsOf] using forceEvents_map_udp u.receive_queue

theorem forceEvents_sensorEvents (ps : List SensorProcess) :
    forceEvents (sensorEvents ps) = ps.flatMap (fun p => p.buffer) := by
  induction ps with
  | nil => rfl
  | cons p rest ih =>
      simp [sensorEvents, forceEvents_append, forceEvents_map_force] at ih ⊢
      exact ih

theorem forceEvents_drainedEvents (rec : DataRecorder) :
    forceEvents (drainedEvents rec) =
      rec.force_sensor_processes.flatMap (fun p => p.buffer) := by
  simp [drainedEvents, forceEvents_append, forceEvents_sensorEvents,
    forceEvents_udpEventsOf, forceEvents_map_trigger]

theorem coe_flatMap_buffers (ps : List SensorProcess) :
    ((ps.flatMap (fun p => p.buffer) : List ForceData) : Multiset ForceData) =
      (ps.map (fun p => (p.buffer : Multiset ForceData))).sum := by
  induction ps with
  | nil => rfl
  | cons p rest ih =>
      simp [List.flatMap_cons, ← Multiset.coe_add, ← ih]

theorem bufferedSum_paused (ps : List SensorProcess) :
    ((ps.map pausedP).map
        (fun p => (p.buffer : Multiset ForceData))).sum = 0 := by
  induction ps with
  | nil => rfl
  | cons p rest ih => simpa [pausedP] using ih

theorem bufferedSum_start_polling (ps : List SensorProcess) :
    ((ps.map SensorProcess.start_polling).map
        (fun p => (p.buffer : Multiset ForceData))).sum =
      (ps.map (fun p => (p.buffer : Multiset ForceData))).sum := by
  induction ps with
  | nil => rfl
  | cons p rest ih => simpa [SensorProcess.start_polling] using ih

theorem bufferedSum_set (ps : List SensorProcess) (i : Nat) (p : SensorProcess)
    (s : ForceData) (h : ps[i]? = some p) :
    ((ps.set i { p with buffer := p.buffer ++ [s] }).map
        (fun x => (x.buffer : Multiset ForceData))).sum =
      (ps.map (fun x => (x.buffer : Multiset ForceData))).sum + {s} := by
  induction ps generalizing i with
  | nil => simp at h
  | cons q rest ih =>
      cases i with
      | zero =>
          simp only [List.getElem?_cons_zero, Option.some.injEq] at h
          subst h
          simp only [List.set_cons_zero, List.map_cons, List.sum_cons]
          rw [show ((q.buffer ++ [s] : List ForceData) : Multiset ForceData) =
                (q.buffer : Multiset ForceData) + {s} by
              rw [← Multiset.coe_singleton, Multiset.coe_add]]
          abel
      | succ n =>
          simp only [List.getElem?_cons_succ] at h
          simp only [List.set_cons_succ, List.map_cons, List.sum_cons, ih n h]
          abel

/-- The conservation invariant of a recorder lifetime: everything a worker
ever buffered is either already returned by some `pause_recording` call or
still sitting in a sensor buffer. -/
def conserved (st : RunState) : Prop :=
  st.produced = (forceEvents st.returned : Multiset ForceData) +
    bufferedSamples st.recorder

theorem writeData_force_sensor_processes (rec : DataRecorder)
    (buf : List Event) :
    (writeData rec buf).force_sensor_processes =
      rec.force_sensor_processes := by
  rw [writeData_eq]

theorem applyOp_conserved (st : RunState) (op : Op) (h : conserved st) :
    conserved (applyOp st op) := by
  cases op with
  | produce i t fx fy fz =>
      rw [conserved] at h ⊢
      cases hp : st.recorder.force_sensor_processes[i]? with
      | none =>
          simp only [applyOp, hp]
          exact h
      | some p =>
          by_cases hs : p.stopped
          · simp only [applyOp, hp]
            rw [if_pos hs]
            exact h
          · simp only [applyOp, hp]
            rw [if_neg hs]
            simp only [bufferedSamples]
            rw [bufferedSum_set _ i p _ hp, h]
            simp only [bufferedSamples]
            rw [← Multiset.singleton_add]
            abel
  | udpArrive d =>
      rw [conserved] at h ⊢
      cases hu : st.recorder.udp with
      | none =>
          simp only [applyOp, hu]
          exact h
      | some u =>
          by_cases hs : u.stopped
          · simp only [applyOp, hu]
            rw [if_pos hs]
            exact h
          · simp only [applyOp, hu]
            rw [if_neg hs]
            simpa [bufferedSamples] using h
  | startRec =>
      rw [conserved] at h ⊢
      cases hr : start_recording st.recorder with
      | error e =>
          simp only [applyOp, hr]
          exact h
      | ok r =>
          simp only [applyOp, hr]
          have : r.force_sensor_processes =
              st.recorder.force_sensor_processes.map
                SensorProcess.start_polling := by
            rw [start_recording] at hr
            by_cases hb : st.recorder.force_sensor_processes.any
                (fun x => !x.bias_available)
            · simp [hb] at hr
            · simp [hb] at hr
              rw [← hr]
          simp only [bufferedSamples, this, bufferedSum_start_polling]
          exact h
  | pauseRec =>
      rw [conserved] at h ⊢
      simp only [applyOp, pause_recording_eq]
      simp only [bufferedSamples, forceEvents_append,
        forceEvents_drainedEvents, bufferedSum_paused]
      rw [h]
      simp only [bufferedSamples]
      rw [← Multiset.coe_add, coe_flatMap_buffers]
      simp
  | processUdp =>
      rw [conserved] at h ⊢
      simp only [applyOp, process_udp_events_eq]
      simpa [bufferedSamples, writeData_force_sensor_processes] using h
  | softTrig code time now =>
      rw [conserved] at h ⊢
      simpa [write_soft_trigger, bufferedSamples] using h

theorem foldl_applyOp_conserved (ops : List Op) (st : RunState)
    (h : conserved st) : conserved (ops.foldl applyOp st) := by
  induction ops generalizing st with
  | nil => exact h
  | cons op rest ih => exact ih _ (applyOp_conserved st op h)

theorem bufSum_of_empty (ps : List SensorProcess)
    (h : ∀ p ∈ ps, p.buffer = []) :
    (ps.map (fun p => (p.buffer : Multiset ForceData))).sum = 0 := by
  induction ps with
  | nil => rfl
  | cons p rest ih =>
      simp only [List.map_cons, List.sum_cons, h p (by simp),
        ih (fun q hq => h q (by simp [hq]))]
      rfl

theorem initStep_buffers (items : List SettingsItem)
    (acc : List SensorProcess × List (Int × Nat))
    (hacc : ∀ p ∈ acc.1, p.buffer = []) :
    ∀ p ∈ (items.foldl initStep acc).1, p.buffer = [] := by
  induction items generalizing acc with
  | nil => exact hacc
  | cons it rest ih =>
      apply ih
      cases it with
      | invalid => exact hacc
      | valid fs =>
          intro p hp
          simp only [initStep, List.mem_append, List.mem_singleton] at hp
          rcases hp with hp | hp
          · exact hacc p hp
          · rw [hp]

theorem bufferedSamples_init (items : List SettingsItem) (pu : Bool) :
    bufferedSamples (initRecorder items pu) = 0 :=
  bufSum_of_empty _ (initStep_buffers items ([], []) (by simp))

theorem runOps_conserved (items : List SettingsItem) (pu : Bool)
    (ops : List Op) : conserved (runOps items pu ops) := by
  apply foldl_applyOp_conserved
  rw [conserved]
  simp [bufferedSamples_init, forceEvents]

theorem quit_forceEvents (rec : DataRecorder) :
    ((forceEvents (quit rec).2 : List ForceData) : Multiset ForceData) =
      bufferedSamples rec := by
  rw [quit_eq]
  show ((forceEvents (drainedEvents rec) : List ForceData) :
      Multiset ForceData) = _
  rw [forceEvents_drainedEvents, coe_flatMap_buffers]
  rfl

theorem sensorEvents_stopped_paused (ps : List SensorProcess) :
    sensorEvents (ps.map (fun p => (pausedP p).stop)) = [] := by
  induction ps with
  | nil => rfl
  | cons p rest ih => simpa [sensorEvents, pausedP, SensorProcess.stop] using ih

theorem drainedEvents_after_quit (rec : DataRecorder) :
    drainedEvents (quit rec).1 = [] := by
  rw [quit_eq]
  show drainedEvents { writeData rec (drainedEvents rec) with
      is_recording := false
      force_sensor_processes :=
        rec.force_sensor_processes.map (fun p => (pausedP p).stop)
      udp := (drainedUdp rec.udp).map UDPConnection.stop
      soft_trigger := []
      file := none } = []
  rw [drainedEvents]
  simp only [sensorEvents_stopped_paused]
  cases rec.udp <;> simp [udpEventsOf, drainedUdp, UDPConnection.stop]

theorem quit_quit (rec : DataRecorder) :
    quit (quit rec).1 = ((quit rec).1, []) := by
  rw [show quit (quit rec).1 =
        ({ writeData (quit rec).1 (drainedEvents (quit rec).1) with
            is_recording := false
            force_sensor_processes :=
              (quit rec).1.force_sensor_processes.map
                (fun p => (pausedP p).stop)
            udp := (drainedUdp (quit rec).1.udp).map UDPConnection.stop
            soft_trigger := []
            file := none },
         drainedEvents (quit rec).1) from quit_eq _]
  rw [drainedEvents_after_quit, writeData_nil]
  rw [quit_eq]
  simp only [List.map_map]
  cases rec with
  | mk ps sc udp ir file fn st =>
      cases udp <;>
        simp [writeData_eq, drainedUdp, UDPConnection.stop,
          Function.comp, pausedP, SensorProcess.stop]

theorem lookup_dictSet_self (sc : List (Int × Nat)) (k : Int) (v : Nat) :
    List.lookup k (dictSet sc k v) = some v := by
  induction sc with
  | nil => simp [dictSet, lookup_cons]
  | cons kv rest ih =>
      obtain ⟨k', v'⟩ := kv
      by_cases h : k' = k
      · subst h
        simp [dictSet, lookup_cons]
      · have h2 : ¬ k = k' := fun hh => h hh.symm
        simp [dictSet, lookup_cons, h, h2, ih]

theorem lookup_dictSet_other (sc : List (Int × Nat)) (k id : Int) (v : Nat)
    (h : ¬ id = k) :
    List.lookup id (dictSet sc k v) = List.lookup id sc := by
  induction sc with
  | nil => simp [dictSet, lookup_cons, h]
  | cons kv rest ih =>
      obtain ⟨k', v'⟩ := kv
      by_cases hk : k' = k
      · subst hk
        simp [dictSet, lookup_cons, h]
      · by_cases hid : id = k' <;> simp [dictSet, lookup_cons, hk, hid, ih]

theorem foldl_initStep_lookup_zero (items : List SettingsItem)
    (acc : List SensorProcess × List (Int × Nat)) (id : Int)
    (h : List.lookup id acc.2 = some 0) :
    List.lookup id (items.foldl initStep acc).2 = some 0 := by
  induction items generalizing acc with
  | nil => exact h
  | cons it rest ih =>
      apply ih
      cases it with
      | invalid => exact h
      | valid fs =>
          show List.lookup id (dictSet acc.2 fs.device_id 0) = some 0
          by_cases hd : id = fs.device_id
          · subst hd
            exact lookup_dictSet_self acc.2 _ 0
          · rw [lookup_dictSet_other acc.2 fs.device_id id 0 hd]
            exact h

theorem foldl_initStep_mem_zero (items : List SettingsItem)
    (acc : List SensorProcess × List (Int × Nat)) (fs : SensorSettings)
    (h : SettingsItem.valid fs ∈ items) :
    List.lookup fs.device_id (items.foldl initStep acc).2 = some 0 := by
  revert h
  induction items generalizing acc with
  | nil =>
      intro h
      simp at h
  | cons it rest ih =>
      intro h
      rcases List.mem_cons.mp h with heq | hmem
      · rw [← heq]
        show List.lookup fs.device_id
          (rest.foldl initStep (initStep acc (.valid fs))).2 = some 0
        apply foldl_initStep_lookup_zero
        exact lookup_dictSet_self _ _ 0
      · exact ih _ hmem

theorem initRecorder_lookup_zero (items : List SettingsItem) (pu : Bool)
    (fs : SensorSettings) (h : SettingsItem.valid fs ∈ items) :
    List.lookup fs.device_id (initRecorder items pu).sample_counter =
      some 0 :=
  foldl_initStep_mem_zero items ([], []) fs h

theorem scaled4_eq_round (q : Rat) : scaled4 q = round (q * 10000) := by
  have hd : ((2 * q.den : ℕ) : ℚ) ≠ 0 := by
    have := q.den_nz
    positivity
  have hmul : q * (q.den : ℚ) = (q.num : ℚ) := by
    rw [show ((q.num : ℚ)) = (q.num : ℚ) / (q.den : ℚ) * (q.den : ℚ) by
          field_simp,
       Rat.num_div_den]
  have key : q * 10000 + 1/2 =
      (((2 * q.num * 10000 + (q.den : Int)) : Int) : ℚ) /
        (((2 * q.den : ℕ) : ℕ) : ℚ) := by
    rw [eq_div_iff hd]
    push_cast
    rw [show (q * 10000 + 1/2) * (2 * (q.den : ℚ)) =
          (q * (q.den : ℚ)) * 20000 + (q.den : ℚ) by ring, hmul]
    ring
  rw [round_eq, key, Rat.floor_intCast_div_natCast]
  rw [scaled4, Int.fdiv_eq_ediv _ (by positivity)]
  norm_cast

theorem digit_char_isDigit (m : Nat) (h : m < 10) :
    (Char.ofNat (48 + m)).isDigit = true := by
  interval_cases m <;> decide

theorem fmt4_four_decimals (q : Rat) :
    ∃ (pre : String) (c1 c2 c3 c4 : Char),
      fmt4 q = pre ++ "." ++ String.mk [c1, c2, c3, c4]
      ∧ c1.isDigit = true ∧ c2.isDigit = true
      ∧ c3.isDigit = true ∧ c4.isDigit = true := by
  refine ⟨(if scaled4 q < 0 then "-" else "") ++
      toString ((scaled4 q).natAbs / 10000),
    Char.ofNat (48 + (scaled4 q).natAbs / 1000 % 10),
    Char.ofNat (48 + (scaled4 q).natAbs / 100 % 10),
    Char.ofNat (48 + (scaled4 q).natAbs / 10 % 10),
    Char.ofNat (48 + (scaled4 q).natAbs % 10), ?_, ?_, ?_, ?_, ?_⟩
  · rw [fmt4]
  all_goals
    exact digit_char_isDigit _ (Nat.mod_lt _ (by norm_num))

theorem filter_isTriggerEv_sensorEvents (ps : List SensorProcess) :
    (sensorEvents ps).filter isTriggerEv = [] := by
  induction ps with
  | nil => rfl
  | cons p rest ih =>
      rw [show sensorEvents (p :: rest) =
            p.buffer.map Event.force ++ sensorEvents rest from rfl,
        List.filter_append, ih]
      rw [List.append_nil]
      induction p.buffer with
      | nil => rfl
      | cons d ds ihd => simpa [isTriggerEv] using ihd

theorem filter_isTriggerEv_udpEventsOf (u : Option UDPConnection) :
    (udpEventsOf u).filter isTriggerEv = [] := by
  cases u with
  | none => rfl
  | some u =>
      show (u.receive_queue.map Event.udp).filter isTriggerEv = []
      induction u.receive_queue with
      | nil => rfl
      | cons d ds ih => simpa [isTriggerEv] using ih

theorem filter_isTriggerEv_triggers (st : List SoftTrigger) :
    (st.map Event.trigger).filter isTriggerEv = st.map Event.trigger := by
  induction st with
  | nil => rfl
  | cons t rest ih => simpa [isTriggerEv] using ih

theorem bumpAll_udp (sc : List (Int × Nat)) (l : List UDPData) :
    bumpAll sc (l.map Event.udp) = sc := by
  induction l with
  | nil => rfl
  | cons d rest ih => simpa [bumpAll] using ih

theorem start_recording_ok_eq (rec r : DataRecorder)
    (h : start_recording rec = Except.ok r) :
    r = { rec with
      force_sensor_processes :=
        rec.force_sensor_processes.map SensorProcess.start_polling
      is_recording := true } := by
  rw [start_recording] at h
  by_cases hb : rec.force_sensor_processes.any (fun x => !x.bias_available)
  · rw [if_pos hb] at h
    cases h
  · rw [if_neg hb] at h
    cases h
    rfl

theorem counterVal_bumpAll_ge (sc : List (Int × Nat)) (buf : List Event)
    (id : Int) :
    (List.lookup id sc).getD 0 ≤ (List.lookup id (bumpAll sc buf)).getD 0 := by
  rw [lookup_bumpAll]
  cases List.lookup id sc <;> simp

theorem findFreeName_not_mem (files : List String) (directory fname : String)
    (tstamp : Option String) (suffix : String) (cnt fuel : Nat)
    (name : String)
    (h : findFreeName files directory fname tstamp suffix cnt fuel =
      some name) :
    directory ++ "/" ++ name ∉ files := by
  induction fuel generalizing cnt with
  | zero => simp [findFreeName] at h
  | succ fuel ih =>
      rw [findFreeName] at h
      by_cases hm : directory ++ "/" ++ candidateName fname cnt tstamp suffix
          ∈ files
      · rw [if_pos hm] at h
        exact ih _ h
      · rw [if_neg hm] at h
        cases h
        exact hm

/-- C1: over any recorder lifetime (any interleaving of worker sampling,
UDP arrivals, start/pause calls, soft triggers and UDP drains), the force
samples returned by all `pause_recording` calls together with the final
`quit` return are, as a multiset, exactly the samples the workers ever
buffered: no sample is lost or duplicated across pause/resume/quit
transitions.  Bias determination, whose buffer clearing the claim excepts,
is not among the lifetime operations. -/
theorem no_sample_lost_or_duplicated (items : List SettingsItem) (pu : Bool)
    (ops : List Op) :
    ((forceEvents ((runOps items pu ops).returned ++
        (quit (runOps items pu ops).recorder).2) : List ForceData) :
      Multiset ForceData) = (runOps items pu ops).produced := by
  have h := runOps_conserved items pu ops
  rw [conserved] at h
  rw [forceEvents_append, ← Multiset.coe_add, quit_forceEvents, h]

/-- C2: one `pause_recording` call clears the recording flag, swaps every
sensor buffer for a fresh empty one (via `pause_polling_get_buffer`),
drains the UDP receive queue, clears the pending soft-trigger list,
appends every drained event to the open file when one is open (and touches
no file otherwise), and returns exactly the merged drained events, in
drain order. -/
theorem pause_recording_drains_every_source (rec : DataRecorder) :
    (pause_recording rec).2 = drainedEvents rec
    ∧ (pause_recording rec).1.is_recording = false
    ∧ (pause_recording rec).1.force_sensor_processes =
        rec.force_sensor_processes.map pausedP
    ∧ (pause_recording rec).1.udp = drainedUdp rec.udp
    ∧ (pause_recording rec).1.soft_trigger = []
    ∧ (pause_recording rec).1.file =
        rec.file.map (fun ls => ls ++ (drainedEvents rec).map eventLine)
    ∧ (pause_recording rec).1.filename = rec.filename := by
  rw [pause_recording_eq]
  refine ⟨rfl, rfl, rfl, rfl, rfl, ?_, ?_⟩ <;> rw [writeData_eq]

/-- C3: `start_recording` (with `determine_bias=False`) raises the
"biases not ready" error exactly when some worker's bias gate is unset;
on the error the lifetime state (and hence `is_recording`) is unchanged,
and otherwise every worker is started polling and `is_recording` becomes
true. -/
theorem start_recording_bias_gate (rec : DataRecorder) :
    ((∃ p ∈ rec.force_sensor_processes, p.bias_available = false) →
        start_recording rec = Except.error
          "Sensors cant be started before bias has been determined.")
    ∧ ((∀ p ∈ rec.force_sensor_processes, p.bias_available = true) →
        start_recording rec = Except.ok
          { rec with
            force_sensor_processes :=
              rec.force_sensor_processes.map SensorProcess.start_polling
            is_recording := true })
    ∧ (∀ st : RunState, st.recorder = rec →
        (∃ e, start_recording rec = Except.error e) →
        applyOp st Op.startRec = st) := by
  refine ⟨?_, ?_, ?_⟩
  · rintro ⟨p, hp, hb⟩
    rw [start_recording, if_pos]
    exact List.any_eq_true.mpr ⟨p, hp, by simp [hb]⟩
  · intro h
    have hb : rec.force_sensor_processes.any (fun x => !x.bias_available) =
        false := by
      rw [List.any_eq_false]
      intro p hp
      simp [h p hp]
    rw [start_recording, if_neg (by simp [hb])]
  · rintro st hst ⟨e, he⟩
    rw [← hst] at he
    simp [applyOp, he]

/-- Witness for C3 at a concrete recorder: with a fresh (bias-less) sensor
the call errors, and with the bias gate set it starts polling. -/
theorem start_recording_bias_gate_witness :
    start_recording demoRecorder = Except.error
      "Sensors cant be started before bias has been determined."
    ∧ start_recording demoReadyRecorder = Except.ok
        { demoReadyRecorder with
          force_sensor_processes :=
            demoReadyRecorder.force_sensor_processes.map
              SensorProcess.start_polling
          is_recording := true } :=
  ⟨(start_recording_bias_gate demoRecorder).1
      ⟨{ settings := ⟨1⟩, buffer := [], polling := false,
         bias_available := false, stopped := false }, by decide, rfl⟩,
   (start_recording_bias_gate demoReadyRecorder).2.1 (by decide)⟩

/-- C4 (evaluation of `__init__` at the claim's failing inputs): a
non-`SensorSettings` element does not raise — the constructed
`RuntimeError` is never raised, so construction succeeds with the element
silently dropped — and two settings sharing `device_id` are both accepted,
sharing one counter entry. -/
theorem init_invalid_settings_not_rejected :
    (initRecorder [SettingsItem.invalid] false).force_sensor_processes = []
    ∧ (initRecorder [SettingsItem.invalid] false).sample_counter = []
    ∧ (initRecorder [SettingsItem.valid ⟨1⟩, SettingsItem.valid ⟨1⟩]
        false).force_sensor_processes.length = 2
    ∧ (initRecorder [SettingsItem.valid ⟨1⟩, SettingsItem.valid ⟨1⟩]
        false).sample_counter = [(1, 0)] :=
  ⟨rfl, rfl, rfl, rfl⟩

/-- C5: `quit` returns exactly what its internal `pause_recording` drains,
closes the data file, stops the UDP worker when present, stops and empties
every sensor worker, and is idempotent: a second `quit` changes nothing
and returns an empty buffer. -/
theorem quit_spec_and_idempotent (rec : DataRecorder) :
    (quit rec).2 = (pause_recording rec).2
    ∧ (quit rec).1.file = none
    ∧ (∀ p ∈ (quit rec).1.force_sensor_processes,
        p.stopped = true ∧ p.buffer = [])
    ∧ (∀ u, (quit rec).1.udp = some u → u.stopped = true)
    ∧ quit (quit rec).1 = ((quit rec).1, []) := by
  refine ⟨?_, ?_, ?_, ?_, quit_quit rec⟩
  · rw [quit_eq, pause_recording_eq]
  · rw [quit_eq]
  · rw [quit_eq]
    intro p hp
    simp only [List.mem_map] at hp
    obtain ⟨q, _, hq⟩ := hp
    rw [← hq]
    exact ⟨rfl, rfl⟩
  · rw [quit_eq]
    intro u hu
    cases hru : rec.udp with
    | none => rw [hru] at hu; cases hu
    | some v =>
        rw [hru] at hu
        cases hu
        rfl

/-- Witness for C5 at a concrete active recorder: the first `quit` returns
the single buffered sample, its worker ends stopped and empty, and the
second `quit` is a no-op returning an empty buffer. -/
theorem quit_spec_and_idempotent_witness :
    (quit demoActiveRecorder).2 =
      [Event.force ⟨1, 10, mkRat 5 1, 0, 0⟩]
    ∧ ((quit demoActiveRecorder).1.force_sensor_processes.all
        (fun p => p.stopped && p.buffer.isEmpty)) = true
    ∧ quit (quit demoActiveRecorder).1 = ((quit demoActiveRecorder).1, []) := by
  have h := quit_spec_and_idempotent demoActiveRecorder
  refine ⟨h.1.trans (by rfl), ?_, h.2.2.2.2⟩
  have h3 := h.2.2.1
  rw [List.all_eq_true]
  intro p hp
  obtain ⟨hs, hb⟩ := h3 p hp
  simp [hs, hb]

/-- C6: `open_data_file` never picks the path of an existing file, marks
the directory as created, records and returns the actually used filename;
on the concrete double call with base name "run" the first call yields
`run.gz` (no numeric suffix) and the second `run_1.gz`. -/
theorem open_data_file_unique_names :
    (∀ (rec : DataRecorder) (fs : FS) (filename : Option String)
        (directory : String) (tstamp : Option String) (varnames : Bool)
        (comment_line : String) (zipped : Bool) (fuel : Nat)
        (out : DataRecorder × FS × String),
        open_data_file rec fs filename directory tstamp varnames
            comment_line zipped fuel = some out →
          directory ++ "/" ++ out.2.2 ∉ fs.files
          ∧ directory ∈ out.2.1.dirs
          ∧ out.1.filename = some out.2.2
          ∧ out.1.file.isSome = true)
    ∧ openTwiceFirst.map (fun r => r.2.2) = some "run.gz"
    ∧ openTwiceSecond.map (fun r => r.2.2) = some "run_1.gz" := by
  refine ⟨?_, rfl, rfl⟩
  intro rec fs filename directory tstamp varnames comment_line zipped fuel
    out h
  simp only [open_data_file] at h
  cases hf : findFreeName (ensureDir fs directory).files directory
      (defaultBaseName filename) tstamp (if zipped then ".gz" else "")
      0 fuel with
  | none =>
      rw [hf] at h
      cases h
  | some name =>
      rw [hf] at h
      cases h
      have hnm := findFreeName_not_mem _ _ _ _ _ _ _ _ hf
      refine ⟨?_, ?_, rfl, rfl⟩
      · rw [ensureDir] at hnm
        by_cases hd : directory ∈ fs.dirs <;> simpa [hd] using hnm
      · rw [ensureDir]
        by_cases hd : directory ∈ fs.dirs <;> simp [hd]

/-- Witness for C6: applying the no-overwrite statement to the concrete
first call on the empty filesystem. -/
theorem open_data_file_unique_names_witness :
    ("data" ++ "/" ++ "run.gz") ∉ (FS.mk [] []).files
    ∧ "data" ∈ (["data"] : List String) := by
  have h := open_data_file_unique_names.1 demoRecorder (FS.mk [] [])
    (some "run") "data" none true "" true 10
    ({ close_data_file demoRecorder with
        file := some ["device_tag, time, Fx, Fy, Fz\n"]
        filename := some "run.gz" },
     FS.mk ["data"] ["data/run.gz"], "run.gz") (by rfl)
  exact ⟨h.1, h.2.1⟩

/-- C7 counterexample: nothing stops a sensor from being configured with
`device_id = 88 = CODE_SOFTTRIGGER`, so the reserved codes are not
distinct from every real device id: the force row of such a sensor and a
soft-trigger row share the leading field `88`. -/
theorem reserved_code_collides_with_device_id :
    (initRecorder [SettingsItem.valid ⟨88⟩] false).force_sensor_processes.map
        (fun p => p.settings.device_id) = [CODE_SOFTTRIGGER]
    ∧ eventLine (Event.force ⟨88, 5, 0, 0, 0⟩) =
        "88,5,0.0000,0.0000,0.0000\n"
    ∧ eventLine (Event.trigger ⟨5, 7⟩) = "88,5,7,0,0\n" := by
  refine ⟨rfl, by decide, by decide⟩

/-- C7 (amended): the rows written by `_write_data` have the stated
comma-separated shapes, the force components carry exactly four decimal
digits, and the two reserved codes 88 and 99 are distinct from each other;
distinctness from real device ids is not enforced by the code (see the
counterexample). -/
theorem event_row_format :
    (∀ d : ForceData, eventLine (.force d) =
        toString d.device_id ++ "," ++ toString d.time ++ "," ++
        fmt4 d.Fx ++ "," ++ fmt4 d.Fy ++ "," ++ fmt4 d.Fz ++ "\n")
    ∧ (∀ t : SoftTrigger, eventLine (.trigger t) =
        "88," ++ toString t.time ++ "," ++ toString t.code ++ ",0,0\n")
    ∧ (∀ u : UDPData, eventLine (.udp u) =
        "99," ++ toString u.time ++ "," ++ u.string ++ ",0,0\n")
    ∧ CODE_SOFTTRIGGER ≠ CODE_UDPDATA
    ∧ (∀ q : Rat, ∃ (pre : String) (c1 c2 c3 c4 : Char),
        fmt4 q = pre ++ "." ++ String.mk [c1, c2, c3, c4]
        ∧ c1.isDigit = true ∧ c2.isDigit = true
        ∧ c3.isDigit = true ∧ c4.isDigit = true) :=
  ⟨fun d => rfl, fun t => rfl, fun u => rfl, by decide, fmt4_four_decimals⟩

/-- C8: `write_soft_trigger` only appends to the in-memory pending list
(no file write, no counter change), defaulting the timestamp to the
current timer time; at the next `pause_recording` the file receives
exactly one soft-trigger row, carrying that code and that timestamp (so
its time is ≥ the time of the call). -/
theorem write_soft_trigger_pending_flush (rec : DataRecorder)
    (code now : Int) (lines : List String)
    (h0 : rec.soft_trigger = []) (hf : rec.file = some lines) :
    (write_soft_trigger rec code none now).file = rec.file
    ∧ (write_soft_trigger rec code none now).sample_counter =
        rec.sample_counter
    ∧ (write_soft_trigger rec code none now).soft_trigger =
        [{ time := now, code := code }]
    ∧ (pause_recording (write_soft_trigger rec code none now)).2.filter
        isTriggerEv = [Event.trigger { time := now, code := code }]
    ∧ (pause_recording (write_soft_trigger rec code none now)).1.file =
        some (lines ++
          ((pause_recording
            (write_soft_trigger rec code none now)).2).map eventLine) := by
  refine ⟨rfl, rfl, by rw [write_soft_trigger]; simp [h0], ?_, ?_⟩
  · rw [pause_recording_eq]
    show (drainedEvents (write_soft_trigger rec code none now)).filter
        isTriggerEv = _
    rw [drainedEvents]
    simp only [write_soft_trigger, h0]
    rw [List.filter_append, List.filter_append,
      filter_isTriggerEv_sensorEvents, filter_isTriggerEv_udpEventsOf,
      filter_isTriggerEv_triggers]
    rfl
  · rw [pause_recording_eq]
    show (writeData (write_soft_trigger rec code none now)
        (drainedEvents (write_soft_trigger rec code none now))).file = _
    rw [writeData_eq]
    show ((write_soft_trigger rec code none now).file).map _ = _
    rw [show (write_soft_trigger rec code none now).file = rec.file
          from rfl, hf]
    rfl

/-- Witness for C8 at the demo recorder with an open empty file,
`code = 7`, timer time 42. -/
theorem write_soft_trigger_pending_flush_witness :
    (write_soft_trigger demoFileRecorder 7 none 42).file = some []
    ∧ (pause_recording (write_soft_trigger demoFileRecorder 7 none 42)).2.filter
        isTriggerEv = [Event.trigger { time := 42, code := 7 }]
    ∧ (pause_recording
        (write_soft_trigger demoFileRecorder 7 none 42)).1.file =
        some ["88,42,7,0,0\n"] := by
  have h := write_soft_trigger_pending_flush demoFileRecorder 7 42 []
    rfl rfl
  refine ⟨h.1, h.2.2.2.1, h.2.2.2.2.trans (by rfl)⟩

/-- C9: `process_udp_events` drains only the UDP receive queue, writes the
drained events to the file, and returns them; with an empty queue — in
particular when the recorder was built without a UDP worker — it returns
an empty sequence and leaves the recorder (including the file) untouched. -/
theorem process_udp_events_spec (rec : DataRecorder) :
    (process_udp_events rec).2 = udpEventsOf rec.udp
    ∧ (process_udp_events rec).1 =
        { rec with
          udp := drainedUdp rec.udp
          file := rec.file.map
            (fun ls => ls ++ (udpEventsOf rec.udp).map eventLine) }
    ∧ (udpEventsOf rec.udp = [] →
        (process_udp_events rec).2 = [] ∧ (process_udp_events rec).1 = rec) := by
  have h2 : (process_udp_events rec).1 =
      { rec with
        udp := drainedUdp rec.udp
        file := rec.file.map
          (fun ls => ls ++ (udpEventsOf rec.udp).map eventLine) } := by
    rw [process_udp_events_eq]
    show writeData { rec with udp := drainedUdp rec.udp }
        (udpEventsOf rec.udp) = _
    rw [writeData_eq]
    cases hu : rec.udp with
    | none => rfl
    | some u =>
        show { rec with
            udp := drainedUdp (some u)
            sample_counter :=
              bumpAll rec.sample_counter (u.receive_queue.map Event.udp)
            file := _ } = _
        rw [bumpAll_udp]
  refine ⟨by rw [process_udp_events_eq], h2, ?_⟩
  intro he
  refine ⟨by rw [process_udp_events_eq, he], ?_⟩
  rw [h2, he]
  have hud : drainedUdp rec.udp = rec.udp := by
    cases hu : rec.udp with
    | none => rfl
    | some u =>
        cases u with
        | mk q s =>
            rw [hu, udpEventsOf] at he
            rw [drainedUdp]
            simp only [List.map_eq_nil_iff] at he
            rw [he]
  rw [hud]
  cases rec with
  | mk ps sc udp ir file fn st =>
      cases file <;> simp

/-- Witness for C9 at the recorder constructed with a UDP worker whose
queue is empty. -/
theorem process_udp_events_spec_witness :
    (process_udp_events demoUdpRecorder).2 = []
    ∧ (process_udp_events demoUdpRecorder).1 = demoUdpRecorder :=
  (process_udp_events_spec demoUdpRecorder).2.2 rfl

/-- C10: across each drain (`pause_recording` or `process_udp_events`),
every device counter grows by exactly the number of force samples with
that device id in the drained buffer — a `process_udp_events` drain holds
no force samples, so there it grows by 0 — independently of whether a file
is open; each configured id starts at 0 at construction, and no lifetime
operation ever decreases a counter. -/
theorem sample_counter_tracks_drains :
    (∀ (rec : DataRecorder) (id : Int),
        List.lookup id (pause_recording rec).1.sample_counter =
          (List.lookup id rec.sample_counter).map
            (· + countForceId (pause_recording rec).2 id))
    ∧ (∀ (rec : DataRecorder) (id : Int),
        List.lookup id (process_udp_events rec).1.sample_counter =
          (List.lookup id rec.sample_counter).map
            (· + countForceId (process_udp_events rec).2 id))
    ∧ (∀ (items : List SettingsItem) (pu : Bool) (fs : SensorSettings),
        SettingsItem.valid fs ∈ items →
        List.lookup fs.device_id (initRecorder items pu).sample_counter =
          some 0)
    ∧ (∀ (st : RunState) (op : Op) (id : Int),
        counterVal st.recorder id ≤ counterVal (applyOp st op).recorder id) := by
  refine ⟨?_, ?_, initRecorder_lookup_zero, ?_⟩
  · intro rec id
    rw [pause_recording_eq]
    show List.lookup id (writeData rec (drainedEvents rec)).sample_counter = _
    rw [writeData_eq]
    exact lookup_bumpAll _ _ _
  · intro rec id
    rw [process_udp_events_eq]
    show List.lookup id (writeData { rec with udp := drainedUdp rec.udp }
        (udpEventsOf rec.udp)).sample_counter = _
    rw [writeData_eq]
    exact lookup_bumpAll _ _ _
  · intro st op id
    cases op with
    | produce i t fx fy fz =>
        cases hp : st.recorder.force_sensor_processes[i]? with
        | none => simp [applyOp, hp]
        | some p =>
            by_cases hs : p.stopped
            · simp only [applyOp, hp]
              rw [if_pos hs]
            · simp only [applyOp, hp]
              rw [if_neg hs]
              simp [counterVal]
    | udpArrive d =>
        cases hu : st.recorder.udp with
        | none => simp [applyOp, hu]
        | some u =>
            by_cases hs : u.stopped
            · simp only [applyOp, hu]
              rw [if_pos hs]
            · simp only [applyOp, hu]
              rw [if_neg hs]
              simp [counterVal]
    | startRec =>
        cases hr : start_recording st.recorder with
        | error e => simp [applyOp, hr]
        | ok r =>
            simp only [applyOp, hr]
            rw [start_recording_ok_eq _ _ hr]
            simp [counterVal]
    | pauseRec =>
        show counterVal st.recorder id ≤
          counterVal (pause_recording st.recorder).1 id
        rw [pause_recording_eq, counterVal, counterVal]
        show (List.lookup id st.recorder.sample_counter).getD 0 ≤
          (List.lookup id (writeData st.recorder
            (drainedEvents st.recorder)).sample_counter).getD 0
        rw [writeData_eq]
        exact counterVal_bumpAll_ge _ _ _
    | processUdp =>
        show counterVal st.recorder id ≤
          counterVal (process_udp_events st.recorder).1 id
        rw [process_udp_events_eq, counterVal, counterVal]
        show (List.lookup id st.recorder.sample_counter).getD 0 ≤
          (List.lookup id (writeData
            { st.recorder with udp := drainedUdp st.recorder.udp }
            (udpEventsOf st.recorder.udp)).sample_counter).getD 0
        rw [writeData_eq]
        exact counterVal_bumpAll_ge _ _ _
    | softTrig code time now => simp [applyOp, write_soft_trigger, counterVal]

/-- Witness for C10: draining the demo active recorder bumps device 1's
counter from 0 to 1, and a fresh recorder starts it at 0. -/
theorem sample_counter_tracks_drains_witness :
    List.lookup 1 (pause_recording demoActiveRecorder).1.sample_counter =
      some 1
    ∧ List.lookup 1 (initRecorder [SettingsItem.valid ⟨1⟩]
        false).sample_counter = some 0 := by
  refine ⟨(sample_counter_tracks_drains.1 demoActiveRecorder 1).trans
      (by decide), ?_⟩
  exact sample_counter_tracks_drains.2.2.1 [SettingsItem.valid ⟨1⟩] false ⟨1⟩
    (by decide)

end ForceDAQ
